import Mathlib

/-!
Verification of the DNS server's codec and forwarding logic
(`app/dns.py`, `app/main.py`), shallowly embedded in Lean.

Modelling conventions:
* A byte buffer is a `List Nat` of values `< 256`.
* Python `struct.pack`/`int.to_bytes` big-endian packing is modelled
  arithmetically (`n / 256`, `n % 256`); out-of-range values make packing
  return `none`, mirroring the `struct.error` raised by Python.
* A domain name is modelled as its ordered sequence of labels, each label a
  raw byte list; the `str.split(".")` / `".".join(...)` conversions of the
  Python code are pre-applied (the spec constrains names to non-empty,
  7-bit-clean, dot-free labels, on which split/join are inverse bijections,
  and `bytes.decode()` is the identity on byte values).
* Fallible code returns `Option`; `none` models an uncaught Python
  exception (`IndexError`, `struct.error`, `RecursionError`, ...).
* The unbounded recursion of `DNSMessage.parse_question` (a compression
  pointer re-enters the parser at an arbitrary offset) is modelled with an
  explicit fuel parameter; exhausted fuel returns `none`, corresponding to
  Python's `RecursionError`/non-termination.  Every terminating run of the
  Python code is reproduced by any sufficiently large fuel.
-/

/-- The `DNSHeader` dataclass of `app/dns.py`. -/
structure DNSHeader where
  packet_id : Nat
  operation_code : Nat
  recursion_desired : Nat
  response_code : Nat
  question_count : Nat
deriving DecidableEq, Repr

/-- Big-endian 16-bit packing, as `struct.pack("!H", n)`: two bytes, or an
error (`none`) when the value does not fit. -/
def packU16 (n : Nat) : Option (List Nat) :=
  if n < 65536 then some [n / 256, n % 256] else none

/-- 8-bit packing, as `struct.pack("!B", n)`. -/
def packU8 (n : Nat) : Option (List Nat) :=
  if n < 256 then some [n] else none

/-- Model of `struct.pack("!HBBHHHH", ...)` used by `create_header`. -/
def struct_pack_HBBHHHH (a b c d e f g : Nat) : Option (List Nat) := do
  let ba ← packU16 a
  let bb ← packU8 b
  let bc ← packU8 c
  let bd ← packU16 d
  let be' ← packU16 e
  let bf ← packU16 f
  let bg ← packU16 g
  pure (ba ++ bb ++ bc ++ bd ++ be' ++ bf ++ bg)

/-- `DNSMessage.create_header` (`app/dns.py` lines 47-112).  `QR` is the
instance attribute set from the constructor's `indicator` argument. -/
def create_header (QR : Nat) (query_header : DNSHeader)
    (question_count answer_count : Nat) : Option (List Nat) :=
  let flags1 :=
    (QR <<< 7)
    ||| (query_header.operation_code <<< 3)
    ||| (0 <<< 2)
    ||| (0 <<< 1)
    ||| query_header.recursion_desired
  let flags2 := (0 <<< 7) ||| query_header.response_code
  let qdcount := question_count
  let ancount := answer_count
  let nscount := 0
  let arcount := 0
  struct_pack_HBBHHHH query_header.packet_id flags1 flags2
    qdcount ancount nscount arcount

/-- `DNSMessage.parse_header` (`app/dns.py` lines 136-155).
`struct.unpack("!HBBHHHH", header)` requires exactly 12 bytes, raising
otherwise (`none`); a big-endian pair unpacks to `256 * hi + lo`. -/
def parse_header (header : List Nat) : Option DNSHeader :=
  match header with
  | [i1, i2, flags1, _flags2, q1, q2, _a1, _a2, _n1, _n2, _r1, _r2] =>
    let opcode := (flags1 >>> 3) &&& 0b00001111
    let rd_bit := flags1 &&& 0b00000001
    let rcode := if opcode = 0 then 0 else 4
    some {
      packet_id := 256 * i1 + i2
      operation_code := opcode
      recursion_desired := rd_bit
      response_code := rcode
      question_count := 256 * q1 + q2
    }
  | _ => none

/-- `DNSMessage.IS_COMPRESSED_LABEL_MASK`. -/
def IS_COMPRESSED_LABEL_MASK : Nat := 0b11000000

/-- `DNSMessage.LABEL_POINTER_MASK`. -/
def LABEL_POINTER_MASK : Nat := 0b00111111

/-- `DNSMessage._is_compressed_label`. -/
def is_compressed_label (length : Nat) : Bool :=
  length &&& IS_COMPRESSED_LABEL_MASK ≠ 0

/-- `DNSMessage._decode_label`: slicing never raises in Python, so this is
total; the slice `packet[offset+1 : offset+1+length]` is `drop`/`take`. -/
def decode_label (packet : List Nat) (offset length : Nat) : List Nat × Nat :=
  let offset := offset + 1
  let data := (packet.drop offset).take length
  (data, offset + length)

/-- The `".".join(pieces)` of `parse_question`, on raw label bytes
(46 is the code point of the dot). -/
def join_name (pieces : List (List Nat)) : List Nat :=
  List.intercalate [46] pieces

/-- The label-reading `while` loop of `DNSMessage.parse_question`
(`app/dns.py` lines 159-171), returning the accumulated pieces and the
offset at loop exit.  `packet[offset]` raising `IndexError` is `none`.
The compressed branch inlines `_follow_label_pointer` (lines 195-199):
that helper reads the pointer's low byte, then returns the full result of
the recursive `parse_question` call — whose own trailing `offset += 4 + 1`
is the `+ 4 + 1` below — so the joined name decoded at the pointer target
becomes one piece and the loop resumes at the recursive call's offset. -/
def read_labels : Nat → List Nat → Nat → Option (List (List Nat) × Nat)
  | 0, _, _ => none
  | fuel + 1, packet, offset =>
    match packet[offset]? with
    | none => none
    | some length =>
      if length = 0 then some ([], offset)
      else if packet.length - 1 ≤ offset + length then some ([], offset)
      else if is_compressed_label length then
        match packet[offset + 1]? with
        | none => none
        | some lo =>
          match read_labels fuel packet
              (((length &&& LABEL_POINTER_MASK) <<< 8) ||| lo) with
          | none => none
          | some (inner, inner_exit) =>
            match read_labels fuel packet (inner_exit + 4 + 1) with
            | none => none
            | some (rest, final) => some (join_name inner :: rest, final)
      else
        match decode_label packet offset length with
        | (data, next) =>
          match read_labels fuel packet next with
          | none => none
          | some (rest, final) => some (data :: rest, final)

/-- `DNSMessage.parse_question` (`app/dns.py` lines 157-176): run the label
loop, then skip 4 bytes for TYPE and CLASS plus the null terminator. -/
def parse_question (fuel : Nat) (packet : List Nat) (offset : Nat) :
    Option (List (List Nat) × Nat) :=
  match read_labels fuel packet offset with
  | none => none
  | some (pieces, exit_offset) => some (pieces, exit_offset + 4 + 1)

/-- `DNSMessage._as_string_of_bytes`: `number.to_bytes(length)` big-endian
(its `.decode()` is the identity on the ASCII-range bytes produced here). -/
def as_string_of_bytes (number : Nat) (length : Nat) : List Nat :=
  (List.range length).map (fun i => (number >>> (8 * (length - 1 - i))) &&& 255)

/-- `DNSMessage._as_label_sequence` (`app/dns.py` lines 201-207), on the
split label list: accumulate `chr(len(label)) + label` per label, then
append the null terminator.  Note the source performs no length check. -/
def as_label_sequence (labels : List (List Nat)) : List Nat :=
  (labels.foldl (fun result label => result ++ (label.length :: label)) []) ++ [0]

/-- `DNSMessage.create_question`: name, 2-byte TYPE (=1), 2-byte CLASS (=1). -/
def create_question (domain_name : List (List Nat)) : List Nat :=
  let name := as_label_sequence domain_name
  let question_type := as_string_of_bytes 1 2
  let question_class := as_string_of_bytes 1 2
  name ++ question_type ++ question_class

/-- The single-question branch of `_run_forwarding_server` (`app/main.py`
lines 109-115): send `buf` as is, return the upstream reply as is.  The
upstream resolver is an oracle function from request bytes to reply bytes;
the result pairs the bytes sent upstream with the bytes sent back to the
client. -/
def forward_single (upstream : List Nat → List Nat) (buf : List Nat) :
    List Nat × List Nat :=
  let server_response := upstream buf
  (buf, server_response)

/-- The question-splitting loop of `_run_forwarding_server` (`app/main.py`
lines 55-81), iterated `n` times from the given offset: parse the next
question name from `buf`, build a single-question request header
(`indicator=0`, `question_count=1`, `answer_count=1`), send the header plus
re-encoded question upstream, and record the upstream reply.  Returns the
requests sent and the answers received, in order. -/
def collect_answers (fuel : Nat) (upstream : List Nat → List Nat)
    (buf : List Nat) (query_header : DNSHeader) :
    Nat → Nat → Option (List (List Nat) × List (List Nat))
  | 0, _ => some ([], [])
  | n + 1, offset =>
    match parse_question fuel buf offset with
    | none => none
    | some (domain_name, offset') =>
      match create_header 0
          (DNSHeader.mk query_header.packet_id query_header.operation_code
            query_header.recursion_desired query_header.response_code 1)
          1 1 with
      | none => none
      | some request_header =>
        let request := request_header ++ create_question domain_name
        let answer := upstream request
        match collect_answers fuel upstream buf query_header n offset' with
        | none => none
        | some (requests, answers) =>
          some (request :: requests, answer :: answers)

/-- The answer-merging loop of `_run_forwarding_server` (`app/main.py`
lines 97-105): for each upstream reply in order, parse the question at
offset 12 of the reply, append its re-encoded form, then append the reply's
bytes past the 12-byte header. -/
def merge_answers (fuel : Nat) : List (List Nat) → Option (List Nat)
  | [] => some []
  | answer :: rest =>
    match parse_question fuel answer 12 with
    | none => none
    | some (domain_name, _offset) =>
      match merge_answers fuel rest with
      | none => none
      | some merged =>
        some (create_question domain_name ++ answer.drop 12 ++ merged)

/-- The multi-question branch of `_run_forwarding_server` (`app/main.py`
lines 52-108): split, forward each question, rebuild a response header with
the updated answer count, merge.  Result: requests sent upstream paired
with the final response bytes. -/
def forward_multi (fuel : Nat) (upstream : List Nat → List Nat)
    (buf : List Nat) (query_header : DNSHeader) :
    Option (List (List Nat) × List Nat) :=
  match collect_answers fuel upstream buf query_header
      query_header.question_count 12 with
  | none => none
  | some (requests, answers) =>
    match create_header 1
        (DNSHeader.mk query_header.packet_id query_header.operation_code
          query_header.recursion_desired query_header.response_code
          query_header.question_count)
        query_header.question_count answers.length with
    | none => none
    | some response_header =>
      match merge_answers fuel answers with
      | none => none
      | some merged =>
        some (requests, response_header ++ merged)

/-- One iteration of `_run_forwarding_server` (`app/main.py` lines 42-115)
for an inbound datagram `buf`: parse the header from the first 12 bytes and
dispatch on the question count.  Returns the requests sent upstream and the
response returned to the client. -/
def run_forwarding_step (fuel : Nat) (upstream : List Nat → List Nat)
    (buf : List Nat) : Option (List (List Nat) × List Nat) :=
  match parse_header (buf.take 12) with
  | none => none
  | some query_header =>
    if query_header.question_count > 1 then
      forward_multi fuel upstream buf query_header
    else
      let (request, server_response) := forward_single upstream buf
      some ([request], server_response)

/-- The reply-header construction of `_run_server` (`app/main.py` lines
12-25): parse the inbound header from the first 12 bytes, then build the
response header from it with `DNSMessage(packet_id)` (default
`indicator = 1`). -/
def build_reply_header (buf : List Nat) (question_count answer_count : Nat) :
    Option (List Nat) :=
  match parse_header (buf.take 12) with
  | none => none
  | some query_header => create_header 1 query_header question_count answer_count

/-- The length-prefixed body that `_as_label_sequence` emits before the
null terminator. -/
def encode_body (labels : List (List Nat)) : List Nat :=
  (labels.map (fun l => l.length :: l)).flatten

/-- A 194-byte packet: a compression pointer `0xC0 0x0C` at offset 0
targeting offset 12, where the single label "abc" is encoded, padded with
zero bytes so that the bounds guard `offset + length >= len(packet) - 1`
does not suppress the pointer branch (the length byte 0xC0 = 192 makes that
guard fire for any shorter packet). -/
def c1_packet : List Nat :=
  [192, 12] ++ List.replicate 10 0 ++ [3, 97, 98, 99, 0] ++ List.replicate 177 0

/-- A fixed answer resource record (name "x", type 1, class 1, TTL 60,
RDLENGTH 4, RDATA 8.8.8.8) used by the stub upstream resolver. -/
def fixed_rr : List Nat :=
  [1, 120, 0, 0, 1, 0, 1, 0, 0, 0, 60, 0, 4, 8, 8, 8, 8]

/-- A stub upstream resolver for concrete forwarding exchanges: echoes the
request (header plus question) and appends one fixed answer record —
the shape of the spec's test stub, which echoes a fixed single-answer
reply per single-question request. -/
def stub_upstream (request : List Nat) : List Nat :=
  request ++ fixed_rr

/-- A two-question inbound query: packet ID 0, QDCOUNT 2, questions for
the names "a" and "b". -/
def c4_buf : List Nat :=
  [0, 0, 0, 0, 0, 2, 0, 0, 0, 0, 0, 0]
    ++ create_question [[97]] ++ create_question [[98]]

/-- The stub upstream's reply to the synthesized sub-query for "a". -/
def c4_reply_a : List Nat :=
  stub_upstream ([0, 0, 0, 0, 0, 1, 0, 1, 0, 0, 0, 0] ++ create_question [[97]])

/-- The stub upstream's reply to the synthesized sub-query for "b". -/
def c4_reply_b : List Nat :=
  stub_upstream ([0, 0, 0, 0, 0, 1, 0, 1, 0, 0, 0, 0] ++ create_question [[98]])

/-- The combined-packet layout asserted by the specification for the
`c4_buf` exchange: header, then ALL re-encoded questions in order, then
all collected answer spans (reply bytes past the 12-byte header) in the
same order. -/
def c4_claimed_layout : List Nat :=
  [0, 0, 128, 0, 0, 2, 0, 2, 0, 0, 0, 0]
    ++ create_question [[97]] ++ create_question [[98]]
    ++ c4_reply_a.drop 12 ++ c4_reply_b.drop 12

/-- The combined packet the code actually produces for the `c4_buf`
exchange: header, then question/answer-span pairs interleaved per answer. -/
def c4_actual : List Nat :=
  [0, 0, 128, 0, 0, 2, 0, 2, 0, 0, 0, 0]
    ++ (create_question [[97]] ++ c4_reply_a.drop 12)
    ++ (create_question [[98]] ++ c4_reply_b.drop 12)

/-! ### Helper lemmas -/

lemma foldl_label_append (labels : List (List Nat)) :
    ∀ init : List Nat,
      labels.foldl (fun result label => result ++ (label.length :: label)) init
        = init ++ encode_body labels := by
  induction labels with
  | nil => intro init; simp [encode_body]
  | cons l rest ih =>
    intro init
    simp only [List.foldl_cons, ih, encode_body, List.map_cons, List.flatten]
    simp [List.append_assoc]

lemma as_label_sequence_eq (labels : List (List Nat)) :
    as_label_sequence labels = encode_body labels ++ [0] := by
  simp [as_label_sequence, foldl_label_append]

lemma flags1_bits : ∀ qr, qr < 2 → ∀ oc, oc < 16 → ∀ rd, rd < 2 →
    ((qr <<< 7) ||| (oc <<< 3) ||| (0 <<< 2) ||| (0 <<< 1) ||| rd) < 256 ∧
    (((qr <<< 7) ||| (oc <<< 3) ||| (0 <<< 2) ||| (0 <<< 1) ||| rd) >>> 7) = qr ∧
    ((((qr <<< 7) ||| (oc <<< 3) ||| (0 <<< 2) ||| (0 <<< 1) ||| rd) >>> 3) &&& 15) = oc ∧
    ((((qr <<< 7) ||| (oc <<< 3) ||| (0 <<< 2) ||| (0 <<< 1) ||| rd) >>> 2) &&& 1) = 0 ∧
    ((((qr <<< 7) ||| (oc <<< 3) ||| (0 <<< 2) ||| (0 <<< 1) ||| rd) >>> 1) &&& 1) = 0 ∧
    (((qr <<< 7) ||| (oc <<< 3) ||| (0 <<< 2) ||| (0 <<< 1) ||| rd) &&& 1) = rd := by
  decide

lemma flags2_bits : ∀ rc, rc < 16 →
    ((0 <<< 7) ||| rc) = rc ∧ rc >>> 7 = 0 ∧ (rc >>> 4) &&& 7 = 0 ∧ rc &&& 15 = rc := by
  decide

lemma short_label_not_compressed : ∀ n, n < 64 → is_compressed_label n = false := by
  decide

example : as_label_sequence [[97, 98], [99]] = [2, 97, 98, 1, 99, 0] := by decide
example : create_question [[97]] = [1, 97, 0, 0, 1, 0, 1] := by decide
example : parse_question 3 (as_label_sequence [[97, 98], [99]]) 0
    = some ([[97, 98], [99]], 10) := by decide
example : parse_header [4, 210, 5, 0, 0, 1, 0, 0, 0, 0, 0, 0]
    = some ⟨1234, 0, 1, 0, 1⟩ := by decide
example : create_header 1 ⟨1234, 0, 1, 0, 1⟩ 1 1
    = some [4, 210, 129, 0, 0, 1, 0, 1, 0, 0, 0, 0] := by decide

/-! ### C1 — compression pointer handling -/

set_option maxRecDepth 4000 in
/-- C1: the claim says decoding a name whose controlling byte has high bits
`11` returns a next offset exactly 2 bytes past the pointer.  In the code,
`_follow_label_pointer` returns the recursive `parse_question` result
whole, so the outer offset lands inside (past) the pointed-to region: for
`c1_packet` the labels are decoded correctly as "abc" via the 14-bit
pointer to offset 12, but the returned next offset is 26 — the pointed-to
name ends at offset 16, plus the recursive call's `+ 5`, plus the outer
call's own `+ 5` — not the offset 2 the claim requires, and the label loop
continues after the pointer instead of terminating. -/
theorem c1_pointer_offset_bug :
    parse_question 10 c1_packet 0 = some ([[97, 98, 99]], 26) ∧ (26 : Nat) ≠ 0 + 2 := by
  constructor
  · decide
  · decide

/-! ### C5 — bounds behaviour of name decoding -/

/-- C5 counterexample: the claim says an out-of-range read makes decoding
return the labels accumulated so far and never raise.  But the loop's
controlling read `packet[offset]` is unguarded: decoding the empty buffer
at offset 0 hits an `IndexError` (modelled `none`) instead of returning
`some ([], ...)`. -/
theorem c5_counterexample : parse_question 2 ([] : List Nat) 0 = none := by
  decide

/-- C5 amended: the graceful-truncation guard covers only the label bytes,
not the length byte.  When the length byte itself is readable and nonzero
but consuming the label would cross `len(packet) - 1`, the loop stops and
returns the labels accumulated at that point (here: the loop entry, so none)
together with the exit offset plus 5. -/
theorem c5_truncation_guard (fuel : Nat) (packet : List Nat) (offset L : Nat)
    (hread : packet[offset]? = some L) (hnz : L ≠ 0)
    (hov : packet.length - 1 ≤ offset + L) :
    parse_question (fuel + 1) packet offset = some ([], offset + 4 + 1) := by
  simp only [parse_question, read_labels, hread, if_neg hnz, if_pos hov]

/-- Witness for `c5_truncation_guard` at `packet = [5, 97]`, `offset = 0`. -/
theorem c5_truncation_guard_witness :
    parse_question 2 [5, 97] 0 = some ([], 0 + 4 + 1) :=
  c5_truncation_guard 1 [5, 97] 0 5 (by decide) (by decide) (by decide)

/-! ### C9 — encode-side label length validation -/

/-- C9 counterexample: the claim says encoding a name with a label longer
than 63 bytes fails with `NameTooLong`.  `_as_label_sequence` performs no
check at all: a 64-byte label is encoded without error, its raw length 64
emitted as the prefix byte. -/
theorem c9_counterexample :
    as_label_sequence [List.replicate 64 97]
      = 64 :: (List.replicate 64 97 ++ [0]) := by
  decide

/-- C9 amended: encoding never fails for any label lengths — there is no
`NameTooLong` signal anywhere in the code.  For every name the encoder
emits, per label, one byte holding the label's (unvalidated) length
followed by the label's bytes, and a final null terminator; in particular
it succeeds for all names with labels of at most 63 bytes, and equally for
longer ones. -/
theorem c9_no_length_validation (labels : List (List Nat)) :
    as_label_sequence labels
      = (labels.map (fun l => l.length :: l)).flatten ++ [0] :=
  as_label_sequence_eq labels

/-! ### C2 — name encode/decode round trip -/

lemma read_labels_encode (labels : List (List Nat)) :
    ∀ (fuel : Nat) (pre suf : List Nat),
      (∀ l ∈ labels, 1 ≤ l.length ∧ l.length ≤ 63) →
      labels.length < fuel →
      read_labels fuel (pre ++ (encode_body labels ++ 0 :: suf)) pre.length
        = some (labels, pre.length + (encode_body labels).length) := by
  induction labels with
  | nil =>
    intro fuel pre suf _ hfuel
    obtain ⟨f, rfl⟩ : ∃ f, fuel = f + 1 := ⟨fuel - 1, by omega⟩
    simp only [encode_body, List.map_nil, List.flatten_nil, List.nil_append,
      List.length_nil, Nat.add_zero]
    simp only [read_labels]
    rw [List.getElem?_append_right (Nat.le_refl pre.length)]
    simp
  | cons l rest ih =>
    intro fuel pre suf hlab hfuel
    obtain ⟨f, rfl⟩ : ∃ f, fuel = f + 1 := ⟨fuel - 1, by omega⟩
    obtain ⟨hl1, hl63⟩ := hlab l (List.mem_cons_self l rest)
    have hrest : ∀ x ∈ rest, 1 ≤ x.length ∧ x.length ≤ 63 :=
      fun x hx => hlab x (List.mem_cons_of_mem l hx)
    have hbody : encode_body (l :: rest) ++ 0 :: suf
        = l.length :: (l ++ (encode_body rest ++ 0 :: suf)) := by
      simp [encode_body]
    rw [hbody]
    have hidx : (pre ++ l.length :: (l ++ (encode_body rest ++ 0 :: suf)))[pre.length]?
        = some l.length := by
      rw [List.getElem?_append_right (Nat.le_refl pre.length)]
      simp
    have hlenp : (pre ++ l.length :: (l ++ (encode_body rest ++ 0 :: suf))).length
        = pre.length + 1 + l.length + (encode_body rest).length + 1 + suf.length := by
      simp only [List.length_append, List.length_cons]
      omega
    have hnz : ¬ (l.length = 0) := by omega
    have hguard : ¬ ((pre ++ l.length :: (l ++ (encode_body rest ++ 0 :: suf))).length - 1
        ≤ pre.length + l.length) := by
      rw [hlenp]; omega
    have hcomp : is_compressed_label l.length = false :=
      short_label_not_compressed l.length (by omega)
    have hdecode : decode_label (pre ++ l.length :: (l ++ (encode_body rest ++ 0 :: suf)))
        pre.length l.length = (l, pre.length + 1 + l.length) := by
      simp only [decode_label]
      have hsplit : pre ++ l.length :: (l ++ (encode_body rest ++ 0 :: suf))
          = (pre ++ [l.length]) ++ (l ++ (encode_body rest ++ 0 :: suf)) := by
        simp
      rw [hsplit, List.drop_left' (by simp), List.take_left' rfl]
    have hstep : read_labels f (pre ++ l.length :: (l ++ (encode_body rest ++ 0 :: suf)))
        (pre.length + 1 + l.length)
        = some (rest, pre.length + 1 + l.length + (encode_body rest).length) := by
      have hsplit2 : pre ++ l.length :: (l ++ (encode_body rest ++ 0 :: suf))
          = (pre ++ l.length :: l) ++ (encode_body rest ++ 0 :: suf) := by
        simp
      have hlen2 : (pre ++ l.length :: l).length = pre.length + 1 + l.length := by
        simp only [List.length_append, List.length_cons]
        omega
      have := ih f (pre ++ l.length :: l) suf hrest
        (by simp only [List.length_cons] at hfuel; omega)
      rw [hlen2] at this
      rw [hsplit2]
      exact this
    simp only [read_labels, hidx, if_neg hnz, if_neg hguard, hcomp, Bool.false_eq_true,
      if_false, hdecode, hstep]
    have hlen3 : (encode_body (l :: rest)).length
        = 1 + l.length + (encode_body rest).length := by
      simp only [encode_body, List.map_cons, List.flatten_cons, List.length_append,
        List.length_cons]
      omega
    rw [hlen3]
    simp only [Option.some.injEq, Prod.mk.injEq, true_and]
    omega

/-- C2 counterexample: the claim says decoding the encoder's output yields
a next offset equal to the encoded length.  For the one-label name "a" the
encoding is 3 bytes, but `parse_question` additionally skips 4 bytes for
TYPE and CLASS and returns next offset 7. -/
theorem c2_counterexample :
    parse_question 2 (as_label_sequence [[97]]) 0 = some ([[97]], 7)
    ∧ (as_label_sequence [[97]]).length = 3 ∧ (7 : Nat) ≠ 3 := by
  decide

/-- C2 amended: for every name of 1 to 10 labels, each 1 to 63 ASCII
bytes, decoding the encoder's output from offset 0 yields exactly that
name, with next offset equal to the encoded length plus 4 — the decoder is
a question decoder and always advances past the 4 TYPE/CLASS bytes that
follow the name. -/
theorem c2_roundtrip (labels : List (List Nat)) (fuel : Nat)
    (_hne : labels ≠ []) (_hcount : labels.length ≤ 10)
    (hlab : ∀ l ∈ labels, 1 ≤ l.length ∧ l.length ≤ 63)
    (_hascii : ∀ l ∈ labels, ∀ b ∈ l, b < 128)
    (hfuel : labels.length < fuel) :
    parse_question fuel (as_label_sequence labels) 0
      = some (labels, (as_label_sequence labels).length + 4) := by
  have h := read_labels_encode labels fuel [] [] hlab hfuel
  simp only [List.nil_append, List.length_nil, Nat.zero_add] at h
  rw [as_label_sequence_eq]
  simp only [parse_question, h]
  simp only [List.length_append, List.length_cons, List.length_nil,
    Option.some.injEq, Prod.mk.injEq, true_and]

/-- Witness for `c2_roundtrip` at the two-label name "ab.c". -/
theorem c2_roundtrip_witness :
    parse_question 3 (as_label_sequence [[97, 98], [99]]) 0
      = some ([[97, 98], [99]], (as_label_sequence [[97, 98], [99]]).length + 4) :=
  c2_roundtrip [[97, 98], [99]] 3 (by decide) (by decide) (by decide)
    (by decide) (by decide)

/-! ### C3 — header encode/decode round trip -/

/-- C3 counterexample: the claim says decode ∘ encode is the identity on
every valid header.  `parse_header` does not read RCODE from the wire; it
derives it from OPCODE (0 if OPCODE = 0 else 4).  A header with OPCODE = 0
and RCODE = 1 encodes fine but decodes with RCODE = 0. -/
theorem c3_counterexample :
    (create_header 1 ⟨0, 0, 0, 1, 0⟩ 0 0).bind parse_header = some ⟨0, 0, 0, 0, 0⟩
    ∧ (⟨0, 0, 0, 0, 0⟩ : DNSHeader) ≠ ⟨0, 0, 0, 1, 0⟩ := by
  decide

/-- C3 amended: the round trip holds for every valid header whose response
code already satisfies the decoder's derivation rule (RCODE = 0 if
OPCODE = 0, else 4); packet ID, opcode, RD and question count always
survive the round trip, and RCODE survives exactly under that rule. -/
theorem c3_roundtrip (h : DNSHeader) (QR ac : Nat)
    (hpid : h.packet_id < 65536) (hoc : h.operation_code < 16)
    (hrd : h.recursion_desired < 2) (hqc : h.question_count < 65536)
    (hrc : h.response_code = if h.operation_code = 0 then 0 else 4)
    (hqr : QR < 2) (hac : ac < 65536) :
    ∃ bytes, create_header QR h h.question_count ac = some bytes
      ∧ parse_header bytes = some h := by
  obtain ⟨pid, oc, rd, rc, qc⟩ := h
  simp only at hpid hoc hrd hqc hrc
  obtain ⟨hf1lt, _, hf1oc, _, _, hf1rd⟩ := flags1_bits QR hqr oc hoc rd hrd
  have hrclt : rc < 16 := by rw [hrc]; split <;> omega
  obtain ⟨hf2eq, _, _, _⟩ := flags2_bits rc hrclt
  refine ⟨[pid / 256, pid % 256,
    (QR <<< 7) ||| (oc <<< 3) ||| (0 <<< 2) ||| (0 <<< 1) ||| rd, rc,
    qc / 256, qc % 256, ac / 256, ac % 256, 0, 0, 0, 0], ?_, ?_⟩
  · simp only [create_header, struct_pack_HBBHHHH, packU16, packU8]
    rw [if_pos hpid, if_pos hf1lt,
      if_pos (show (0 <<< 7) ||| rc < 256 by rw [hf2eq]; omega),
      if_pos hqc, if_pos hac, if_pos (show (0 : Nat) < 65536 by decide)]
    simp [hf2eq]
  · simp only [parse_header, hf1oc, hf1rd]
    have e1 : 256 * (pid / 256) + pid % 256 = pid := by omega
    have e2 : 256 * (qc / 256) + qc % 256 = qc := by omega
    rw [e1, e2, ← hrc]

/-- Witness for `c3_roundtrip` at a concrete header with OPCODE = 5,
RCODE = 4. -/
theorem c3_roundtrip_witness :
    ∃ bytes, create_header 1 ⟨1234, 5, 1, 4, 2⟩ 2 3 = some bytes
      ∧ parse_header bytes = some ⟨1234, 5, 1, 4, 2⟩ :=
  c3_roundtrip ⟨1234, 5, 1, 4, 2⟩ 1 3 (by decide) (by decide) (by decide)
    (by decide) (by decide) (by decide) (by decide)

/-! ### C7 — single-question pass-through -/

/-- C7: when the parsed header declares exactly one question, the
forwarding step sends the original inbound buffer upstream byte-for-byte
and returns the upstream's raw reply byte-for-byte, with no re-encoding. -/
theorem c7_passthrough (fuel : Nat) (upstream : List Nat → List Nat)
    (buf : List Nat) (qh : DNSHeader)
    (hp : parse_header (buf.take 12) = some qh)
    (h1 : qh.question_count = 1) :
    run_forwarding_step fuel upstream buf = some ([buf], upstream buf) := by
  simp only [run_forwarding_step, hp]
  rw [if_neg (by omega : ¬ qh.question_count > 1)]
  rfl

/-- Witness for `c7_passthrough` on a concrete one-question header and a
stub upstream that prepends a byte. -/
theorem c7_passthrough_witness :
    run_forwarding_step 1 (fun r => 0 :: r) [0, 0, 0, 0, 0, 1, 0, 0, 0, 0, 0, 0]
      = some ([[0, 0, 0, 0, 0, 1, 0, 0, 0, 0, 0, 0]],
          0 :: [0, 0, 0, 0, 0, 1, 0, 0, 0, 0, 0, 0]) :=
  c7_passthrough 1 (fun r => 0 :: r) [0, 0, 0, 0, 0, 1, 0, 0, 0, 0, 0, 0]
    ⟨0, 0, 0, 0, 1⟩ (by decide) rfl

/-! ### C8 — header encoder wire layout -/

lemma flags2_claim_form : ∀ rc, rc < 16 →
    ((0 <<< 7) ||| (0 <<< 4) ||| rc) = ((0 <<< 7) ||| rc) := by
  decide

/-- C8: for in-range fields the header encoder emits exactly 12 bytes —
big-endian ID, flags byte 1 = QR<<7 | OPCODE<<3 | AA<<2 | TC<<1 | RD (with
AA = TC = 0 fixed), flags byte 2 = RA<<7 | Z<<4 | RCODE (with RA = Z = 0
fixed), then big-endian QDCOUNT, ANCOUNT, NSCOUNT = 0, ARCOUNT = 0. -/
theorem c8_layout (QR : Nat) (h : DNSHeader) (qc ac : Nat)
    (hqr : QR < 2) (hpid : h.packet_id < 65536) (hoc : h.operation_code < 16)
    (hrd : h.recursion_desired < 2) (hrc : h.response_code < 16)
    (hqc : qc < 65536) (hac : ac < 65536) :
    ∃ out, create_header QR h qc ac = some out ∧ out.length = 12 ∧
      out = [h.packet_id / 256, h.packet_id % 256,
        (QR <<< 7) ||| (h.operation_code <<< 3) ||| (0 <<< 2) ||| (0 <<< 1)
          ||| h.recursion_desired,
        (0 <<< 7) ||| (0 <<< 4) ||| h.response_code,
        qc / 256, qc % 256, ac / 256, ac % 256, 0, 0, 0, 0] := by
  obtain ⟨pid, oc, rd, rc, qcnt⟩ := h
  simp only at hpid hoc hrd hrc
  obtain ⟨hf1lt, _, _, _, _, _⟩ := flags1_bits QR hqr oc hoc rd hrd
  have hf2eq : (0 <<< 7) ||| rc = rc := by
    rw [Nat.zero_shiftLeft, Nat.zero_or]
  refine ⟨[pid / 256, pid % 256,
    (QR <<< 7) ||| (oc <<< 3) ||| (0 <<< 2) ||| (0 <<< 1) ||| rd,
    (0 <<< 7) ||| rc, qc / 256, qc % 256, ac / 256, ac % 256, 0, 0, 0, 0],
    ?_, by simp, ?_⟩
  · simp only [create_header, struct_pack_HBBHHHH, packU16, packU8]
    rw [if_pos hpid, if_pos hf1lt, if_pos (show (0 <<< 7) ||| rc < 256 by omega),
      if_pos hqc, if_pos hac, if_pos (show (0 : Nat) < 65536 by decide)]
    simp
  · rw [flags2_claim_form rc hrc]

/-- Witness for `c8_layout` at a concrete header. -/
theorem c8_layout_witness :
    ∃ out, create_header 1 ⟨258, 3, 1, 4, 0⟩ 2 5 = some out ∧ out.length = 12 ∧
      out = [258 / 256, 258 % 256,
        (1 <<< 7) ||| (3 <<< 3) ||| (0 <<< 2) ||| (0 <<< 1) ||| 1,
        (0 <<< 7) ||| (0 <<< 4) ||| 4,
        2 / 256, 2 % 256, 5 / 256, 5 % 256, 0, 0, 0, 0] :=
  c8_layout 1 ⟨258, 3, 1, 4, 0⟩ 2 5 (by decide) (by decide) (by decide)
    (by decide) (by decide) (by decide) (by decide)

/-! ### C6 — reply header flag derivation -/

/-- C6: for every inbound query (arbitrary 12-byte header prefix), the
reply header built by parsing the query header and re-encoding with
`indicator = 1` has QR = 1, AA = 0, TC = 0, RD copied verbatim from the
query's flags byte, RA = 0, Z = 0, and RCODE = 0 when the query's OPCODE
is 0 and 4 otherwise. -/
theorem c6_reply_flags (b0 b1 b2 b3 b4 b5 b6 b7 b8 b9 b10 b11 : Nat)
    (rest : List Nat) (qc ac : Nat)
    (hb0 : b0 < 256) (hb1 : b1 < 256) (hqc : qc < 65536) (hac : ac < 65536) :
    ∃ out, build_reply_header
        (b0 :: b1 :: b2 :: b3 :: b4 :: b5 :: b6 :: b7 :: b8 :: b9 :: b10 :: b11 :: rest)
        qc ac = some out ∧
      ∃ f1 f2, out[2]? = some f1 ∧ out[3]? = some f2 ∧
        f1 >>> 7 = 1 ∧ (f1 >>> 2) &&& 1 = 0 ∧ (f1 >>> 1) &&& 1 = 0 ∧
        f1 &&& 1 = b2 &&& 0b00000001 ∧
        f2 >>> 7 = 0 ∧ (f2 >>> 4) &&& 7 = 0 ∧
        f2 &&& 15 = (if (b2 >>> 3) &&& 0b00001111 = 0 then 0 else 4) := by
  have htake : (b0 :: b1 :: b2 :: b3 :: b4 :: b5 :: b6 :: b7 :: b8 :: b9 :: b10
      :: b11 :: rest).take 12 = [b0, b1, b2, b3, b4, b5, b6, b7, b8, b9, b10, b11] := rfl
  have hoclt : (b2 >>> 3) &&& 0b00001111 < 16 :=
    Nat.lt_succ_of_le Nat.and_le_right
  have hrdlt : b2 &&& 0b00000001 < 2 :=
    Nat.lt_succ_of_le Nat.and_le_right
  obtain ⟨hf1lt, hf1qr, _, hf1aa, hf1tc, hf1rd⟩ :=
    flags1_bits 1 (by decide) ((b2 >>> 3) &&& 0b00001111) hoclt
      (b2 &&& 0b00000001) hrdlt
  have hrclt : (if (b2 >>> 3) &&& 0b00001111 = 0 then 0 else 4) < 16 := by
    split <;> omega
  obtain ⟨hf2eq, hf2ra, hf2z, hf2rc⟩ := flags2_bits _ hrclt
  have hpidlt : 256 * b0 + b1 < 65536 := by omega
  refine ⟨[(256 * b0 + b1) / 256, (256 * b0 + b1) % 256,
    (1 <<< 7) ||| (((b2 >>> 3) &&& 0b00001111) <<< 3) ||| (0 <<< 2) ||| (0 <<< 1)
      ||| (b2 &&& 0b00000001),
    (0 <<< 7) ||| (if (b2 >>> 3) &&& 0b00001111 = 0 then 0 else 4),
    qc / 256, qc % 256, ac / 256, ac % 256, 0, 0, 0, 0], ?_, ?_⟩
  · simp only [build_reply_header, htake, parse_header]
    simp only [create_header, struct_pack_HBBHHHH, packU16, packU8]
    rw [if_pos hpidlt, if_pos hf1lt,
      if_pos (show (0 <<< 7) ||| (if (b2 >>> 3) &&& 0b00001111 = 0 then 0 else 4) < 256 by
        rw [hf2eq]; omega),
      if_pos hqc, if_pos hac, if_pos (show (0 : Nat) < 65536 by decide)]
    simp
  · refine ⟨_, _, rfl, rfl, hf1qr, hf1aa, hf1tc, hf1rd, ?_, ?_, ?_⟩
    · rw [hf2eq]; exact hf2ra
    · rw [hf2eq]; exact hf2z
    · rw [hf2eq]; exact hf2rc

/-- Witness for `c6_reply_flags` at a query header with OPCODE = 5 and
RD = 1 (flags byte 1 = 0b00101001 = 41). -/
theorem c6_reply_flags_witness :
    ∃ out, build_reply_header
        (171 :: 205 :: 41 :: 0 :: 0 :: 1 :: 0 :: 0 :: 0 :: 0 :: 0 :: 0 :: [])
        1 1 = some out ∧
      ∃ f1 f2, out[2]? = some f1 ∧ out[3]? = some f2 ∧
        f1 >>> 7 = 1 ∧ (f1 >>> 2) &&& 1 = 0 ∧ (f1 >>> 1) &&& 1 = 0 ∧
        f1 &&& 1 = 41 &&& 0b00000001 ∧
        f2 >>> 7 = 0 ∧ (f2 >>> 4) &&& 7 = 0 ∧
        f2 &&& 15 = (if (41 >>> 3) &&& 0b00001111 = 0 then 0 else 4) :=
  c6_reply_flags 171 205 41 0 0 1 0 0 0 0 0 0 [] 1 1 (by decide) (by decide)
    (by decide) (by decide)

/-! ### C10 — synthesized sub-query headers -/

lemma create_header_bytes (QR : Nat) (h : DNSHeader) (qc ac : Nat)
    (hqr : QR < 2) (hpid : h.packet_id < 65536) (hoc : h.operation_code < 16)
    (hrd : h.recursion_desired < 2) (hrc : h.response_code < 256)
    (hqc : qc < 65536) (hac : ac < 65536) :
    create_header QR h qc ac
      = some [h.packet_id / 256, h.packet_id % 256,
          (QR <<< 7) ||| (h.operation_code <<< 3) ||| (0 <<< 2) ||| (0 <<< 1)
            ||| h.recursion_desired,
          (0 <<< 7) ||| h.response_code,
          qc / 256, qc % 256, ac / 256, ac % 256, 0, 0, 0, 0] := by
  obtain ⟨hf1lt, _, _, _, _, _⟩ :=
    flags1_bits QR hqr h.operation_code hoc h.recursion_desired hrd
  have hf2lt : (0 <<< 7) ||| h.response_code < 256 := by
    rw [Nat.zero_shiftLeft, Nat.zero_or]; exact hrc
  simp only [create_header, struct_pack_HBBHHHH, packU16, packU8]
  rw [if_pos hpid, if_pos hf1lt, if_pos hf2lt, if_pos hqc, if_pos hac,
    if_pos (show (0 : Nat) < 65536 by decide)]
  simp

/-- C10: every request synthesized by the question-splitting loop is
exactly a 12-byte header followed by one re-encoded question — it contains
zero answer records — yet that header carries QDCOUNT = 1 (bytes 4-5 =
0, 1), QR = 0 (high bit of flags byte 2 clear), and an ANCOUNT field of 1
(bytes 6-7 = 0, 1) even though no answers are present. -/
theorem c10_subquery_header (fuel : Nat) (upstream : List Nat → List Nat)
    (buf : List Nat) (qh : DNSHeader)
    (hpid : qh.packet_id < 65536) (hoc : qh.operation_code < 16)
    (hrd : qh.recursion_desired < 2) (hrc : qh.response_code < 256) :
    ∀ (n offset : Nat) (requests answers : List (List Nat)),
      collect_answers fuel upstream buf qh n offset = some (requests, answers) →
      ∀ req ∈ requests, ∃ hdr nm,
        req = hdr ++ create_question nm ∧ hdr.length = 12 ∧
        hdr[2]? = some ((0 <<< 7) ||| (qh.operation_code <<< 3) ||| (0 <<< 2)
          ||| (0 <<< 1) ||| qh.recursion_desired) ∧
        ((0 <<< 7) ||| (qh.operation_code <<< 3) ||| (0 <<< 2) ||| (0 <<< 1)
          ||| qh.recursion_desired) >>> 7 = 0 ∧
        hdr[4]? = some 0 ∧ hdr[5]? = some 1 ∧ hdr[6]? = some 0 ∧
        hdr[7]? = some 1 := by
  have hch := create_header_bytes 0
    (DNSHeader.mk qh.packet_id qh.operation_code qh.recursion_desired
      qh.response_code 1) 1 1 (by decide) hpid hoc hrd hrc
    (by decide) (by decide)
  have hqr0 : ((0 <<< 7) ||| (qh.operation_code <<< 3) ||| (0 <<< 2) ||| (0 <<< 1)
      ||| qh.recursion_desired) >>> 7 = 0 :=
    (flags1_bits 0 (by decide) qh.operation_code hoc qh.recursion_desired hrd).2.1
  intro n
  induction n with
  | zero =>
    intro offset requests answers hcol req hreq
    simp only [collect_answers, Option.some.injEq, Prod.mk.injEq] at hcol
    obtain ⟨h1, _⟩ := hcol
    subst h1
    exact absurd hreq (by simp)
  | succ n ih =>
    intro offset requests answers hcol req hreq
    simp only [collect_answers] at hcol
    cases hpq : parse_question fuel buf offset with
    | none => simp [hpq] at hcol
    | some pr =>
      obtain ⟨domain_name, offset'⟩ := pr
      simp only [hpq, hch] at hcol
      cases hrec : collect_answers fuel upstream buf qh n offset' with
      | none => simp [hrec] at hcol
      | some pr2 =>
        obtain ⟨reqs', answs'⟩ := pr2
        simp only [hrec, Option.some.injEq, Prod.mk.injEq] at hcol
        obtain ⟨h1, _⟩ := hcol
        subst h1
        rcases List.mem_cons.mp hreq with rfl | hmem
        · exact ⟨[qh.packet_id / 256, qh.packet_id % 256,
            (0 <<< 7) ||| (qh.operation_code <<< 3) ||| (0 <<< 2) ||| (0 <<< 1)
              ||| qh.recursion_desired,
            (0 <<< 7) ||| qh.response_code, 1 / 256, 1 % 256, 1 / 256, 1 % 256,
            0, 0, 0, 0],
            domain_name, rfl, by simp, rfl, hqr0, rfl, rfl, rfl, rfl⟩
        · exact ih offset' reqs' answs' hrec req hmem

/-- Witness for `c10_subquery_header`: the first sub-query request of the
concrete two-question exchange on `c4_buf`. -/
theorem c10_subquery_header_witness :
    ∃ hdr nm,
      ([0, 0, 0, 0, 0, 1, 0, 1, 0, 0, 0, 0, 1, 97, 0, 0, 1, 0, 1] : List Nat)
        = hdr ++ create_question nm ∧ hdr.length = 12 ∧
      hdr[2]? = some ((0 <<< 7) ||| ((0 : Nat) <<< 3) ||| (0 <<< 2) ||| (0 <<< 1)
        ||| 0) ∧
      ((0 <<< 7) ||| ((0 : Nat) <<< 3) ||| (0 <<< 2) ||| (0 <<< 1) ||| 0) >>> 7 = 0 ∧
      hdr[4]? = some 0 ∧ hdr[5]? = some 1 ∧ hdr[6]? = some 0 ∧
      hdr[7]? = some 1 :=
  c10_subquery_header 3 stub_upstream c4_buf ⟨0, 0, 0, 0, 2⟩ (by decide)
    (by decide) (by decide) (by decide) 2 12
    [[0, 0, 0, 0, 0, 1, 0, 1, 0, 0, 0, 0, 1, 97, 0, 0, 1, 0, 1],
     [0, 0, 0, 0, 0, 1, 0, 1, 0, 0, 0, 0, 1, 98, 0, 0, 1, 0, 1]]
    [c4_reply_a, c4_reply_b] (by decide)
    [0, 0, 0, 0, 0, 1, 0, 1, 0, 0, 0, 0, 1, 97, 0, 0, 1, 0, 1] (by decide)

/-! ### C4 — multi-question combined packet layout -/

lemma merge_answers_interleaved (fuel : Nat) {answers : List (List Nat)}
    {names : List (List (List Nat))}
    (h : List.Forall₂ (fun a nm => ∃ off, parse_question fuel a 12 = some (nm, off))
      answers names) :
    merge_answers fuel answers
      = some ((names.zip answers).map
          (fun p => create_question p.1 ++ p.2.drop 12)).flatten := by
  induction h with
  | nil => simp [merge_answers]
  | cons hpair hrest ih =>
    obtain ⟨off, hoff⟩ := hpair
    simp only [merge_answers, hoff, ih]
    simp [List.append_assoc]

/-- C4 counterexample: on the concrete two-question exchange the combined
packet is NOT header ++ all questions ++ all answer spans as the claim
states (`c4_claimed_layout`); the code emits, after the header, the pair
question/answer-span per answer, interleaved (`c4_actual`). -/
theorem c4_counterexample :
    Option.map Prod.snd (run_forwarding_step 3 stub_upstream c4_buf)
      = some c4_actual
    ∧ c4_actual ≠ c4_claimed_layout := by
  exact ⟨by decide, by decide⟩

/-- C4 amended: the combined outbound packet's header does carry QDCOUNT =
original question count, ANCOUNT = number of sub-answers, and the packet
ID, opcode, RD and RCODE from the original query; but the payload after
the header is, for each sub-answer in order, a question re-encoded from
the name parsed out of that sub-answer's reply followed by that reply's
bytes past its 12-byte header — question/answer-span pairs interleaved,
not all questions followed by all spans. -/
theorem c4_interleaved (fuel : Nat) (upstream : List Nat → List Nat)
    (buf : List Nat) (qh : DNSHeader) (requests answers : List (List Nat))
    (names : List (List (List Nat)))
    (hp : parse_header (buf.take 12) = some qh)
    (hmulti : qh.question_count > 1)
    (hcol : collect_answers fuel upstream buf qh qh.question_count 12
      = some (requests, answers))
    (hnames : List.Forall₂
      (fun a nm => ∃ off, parse_question fuel a 12 = some (nm, off)) answers names)
    (hpid : qh.packet_id < 65536) (hoc : qh.operation_code < 16)
    (hrd : qh.recursion_desired < 2) (hrc : qh.response_code < 256)
    (hqc : qh.question_count < 65536) (hal : answers.length < 65536) :
    run_forwarding_step fuel upstream buf
      = some (requests,
          [qh.packet_id / 256, qh.packet_id % 256,
            (1 <<< 7) ||| (qh.operation_code <<< 3) ||| (0 <<< 2) ||| (0 <<< 1)
              ||| qh.recursion_desired,
            (0 <<< 7) ||| qh.response_code,
            qh.question_count / 256, qh.question_count % 256,
            answers.length / 256, answers.length % 256, 0, 0, 0, 0]
          ++ ((names.zip answers).map
              (fun p => create_question p.1 ++ p.2.drop 12)).flatten) := by
  have hch := create_header_bytes 1
    (DNSHeader.mk qh.packet_id qh.operation_code qh.recursion_desired
      qh.response_code qh.question_count) qh.question_count answers.length
    (by decide) hpid hoc hrd hrc hqc hal
  simp only [run_forwarding_step, hp]
  rw [if_pos hmulti]
  simp only [forward_multi, hcol, hch, merge_answers_interleaved fuel hnames]

/-- Witness for `c4_interleaved` on the concrete two-question exchange. -/
theorem c4_interleaved_witness :
    run_forwarding_step 3 stub_upstream c4_buf
      = some ([[0, 0, 0, 0, 0, 1, 0, 1, 0, 0, 0, 0, 1, 97, 0, 0, 1, 0, 1],
               [0, 0, 0, 0, 0, 1, 0, 1, 0, 0, 0, 0, 1, 98, 0, 0, 1, 0, 1]],
          [0, 0, 128, 0, 0, 2, 0, 2, 0, 0, 0, 0]
            ++ (([[[97]], [[98]]].zip [c4_reply_a, c4_reply_b]).map
                (fun p => create_question p.1 ++ p.2.drop 12)).flatten) :=
  c4_interleaved 3 stub_upstream c4_buf ⟨0, 0, 0, 0, 2⟩
    [[0, 0, 0, 0, 0, 1, 0, 1, 0, 0, 0, 0, 1, 97, 0, 0, 1, 0, 1],
     [0, 0, 0, 0, 0, 1, 0, 1, 0, 0, 0, 0, 1, 98, 0, 0, 1, 0, 1]]
    [c4_reply_a, c4_reply_b] [[[97]], [[98]]]
    (by decide) (by decide) (by decide)
    (List.Forall₂.cons ⟨19, by decide⟩
      (List.Forall₂.cons ⟨19, by decide⟩ List.Forall₂.nil))
    (by decide) (by decide) (by decide) (by decide) (by decide) (by decide)
